import Mathlib

/-!
# Verification of the OpenGL_Practice rendering loop

A shallow embedding of `src/main.cpp` from the OpenGL_Practice repository:
a GLFW/OpenGL program that opens a window, uploads one three-vertex colored
triangle, compiles a vertex/fragment shader pair, and renders the triangle
every frame under a time-varying rotation and a fixed orthographic projection
until the user requests exit.

The embedding has three layers:

* exact arithmetic models of the glm matrix functions the code calls
  (`glm::ortho`, `glm::rotate`), written generically over a field so they can
  be instantiated at `ℚ` (for decidable evaluation) and at `ℝ` (for the
  trigonometric statements);
* an IEEE-style model `fdiv` of C float division, needed because the code
  divides the framebuffer width by the height without guarding height = 0;
* an event-trace model of `main`: the setup sequence, the frame loop (as a
  recursion over per-iteration inputs supplied by the window system), and the
  teardown, each GLFW/GL call recorded as an `Event`.

Float values that the claims mention (vertex coordinates, matrix entries,
aspect ratios) are idealized as exact rationals/reals; the only float
behavior the claims depend on in a non-algebraic way — division by zero —
is modelled explicitly by `fdiv`.
-/

namespace OpenGLPractice

/-! ## Constants from the GLFW headers and the C standard library -/

/-- Value of the `GLFW_KEY_ESCAPE` key identifier in the GLFW headers. -/
def GLFW_KEY_ESCAPE : Int := 256

/-- Value of the `GLFW_PRESS` action in the GLFW headers. -/
def GLFW_PRESS : Int := 1

/-- Value of the `GLFW_RELEASE` action in the GLFW headers. -/
def GLFW_RELEASE : Int := 0

/-- Value of the `GLFW_REPEAT` action in the GLFW headers. -/
def GLFW_REPEAT : Int := 2

/-- Conventional value of `EXIT_SUCCESS` from `<stdlib.h>`. -/
def EXIT_SUCCESS : Nat := 0

/-- Conventional (nonzero) value of `EXIT_FAILURE` from `<stdlib.h>`. -/
def EXIT_FAILURE : Nat := 1

/-! ## The static vertex array (main.cpp lines 19-29) -/

/-- One record of the anonymous vertex struct in main.cpp: two position
floats `x, y` followed by three color floats `r, g, b`. -/
structure Vertex where
  x : ℚ
  y : ℚ
  r : ℚ
  g : ℚ
  b : ℚ
deriving DecidableEq

/-- The static constant array `vertices[3]` from main.cpp. -/
def vertices : List Vertex :=
  [⟨-0.6, -0.4, 1, 0, 0⟩, ⟨0.6, -0.4, 0, 1, 0⟩, ⟨0, 0.6, 0, 0, 1⟩]

/-- The flat float contents of the `vertices` array as uploaded by
`glBufferData(GL_ARRAY_BUFFER, sizeof(vertices), vertices, GL_STATIC_DRAW)`:
each record contributes its 5 floats in declaration order. -/
def vertexFloats : List ℚ :=
  (vertices.map fun v => [v.x, v.y, v.r, v.g, v.b]).flatten

/-! ## IEEE-style model of C float division

`main.cpp` line 255 computes `float ratio = width / (float)height;` with no
guard on `height`.  For the integer-valued inputs a framebuffer query can
report, float division is exact except when the divisor is zero, where IEEE
754 yields ±infinity (nonzero dividend) or NaN (zero dividend). -/

/-- A float value as relevant to the aspect-ratio computation: a finite
(exact rational) value, one of the two infinities, or NaN. -/
inductive FloatVal where
  | finite (q : ℚ)
  | posInf
  | negInf
  | nan
deriving DecidableEq

/-- IEEE 754 division for exactly-representable operands: when the divisor
is zero the result is an infinity or NaN, never a trap or crash. -/
def fdiv (a b : ℚ) : FloatVal :=
  if b = 0 then
    if a = 0 then FloatVal.nan
    else if 0 < a then FloatVal.posInf
    else FloatVal.negInf
  else FloatVal.finite (a / b)

/-! ## 4x4 matrices and 4-vectors

glm stores matrices column-major and indexes them `m[column][row]`; the
structure below uses the mathematical convention `eRC` = entry at row `R`,
column `C`, so glm's `m[c][r]` is field `e r c` here.  `mat * vec` and
`mat * mat` are the ordinary products on column vectors. -/

/-- A 4x4 matrix with entries in `α` (`eRC` = row `R`, column `C`). -/
structure Mat4 (α : Type) where
  e00 : α
  e01 : α
  e02 : α
  e03 : α
  e10 : α
  e11 : α
  e12 : α
  e13 : α
  e20 : α
  e21 : α
  e22 : α
  e23 : α
  e30 : α
  e31 : α
  e32 : α
  e33 : α
deriving DecidableEq

/-- A 4-component column vector with entries in `α`. -/
structure Vec4 (α : Type) where
  x : α
  y : α
  z : α
  w : α
deriving DecidableEq

/-- The identity matrix, as produced by `glm::identity<glm::mat4>()`. -/
def Mat4.identity (α : Type) [Field α] : Mat4 α :=
  ⟨1, 0, 0, 0,
   0, 1, 0, 0,
   0, 0, 1, 0,
   0, 0, 0, 1⟩

/-- Matrix-matrix product (column-vector convention), the meaning of
`p * m` on `glm::mat4` values. -/
def Mat4.mul {α : Type} [Field α] (A B : Mat4 α) : Mat4 α where
  e00 := A.e00 * B.e00 + A.e01 * B.e10 + A.e02 * B.e20 + A.e03 * B.e30
  e01 := A.e00 * B.e01 + A.e01 * B.e11 + A.e02 * B.e21 + A.e03 * B.e31
  e02 := A.e00 * B.e02 + A.e01 * B.e12 + A.e02 * B.e22 + A.e03 * B.e32
  e03 := A.e00 * B.e03 + A.e01 * B.e13 + A.e02 * B.e23 + A.e03 * B.e33
  e10 := A.e10 * B.e00 + A.e11 * B.e10 + A.e12 * B.e20 + A.e13 * B.e30
  e11 := A.e10 * B.e01 + A.e11 * B.e11 + A.e12 * B.e21 + A.e13 * B.e31
  e12 := A.e10 * B.e02 + A.e11 * B.e12 + A.e12 * B.e22 + A.e13 * B.e32
  e13 := A.e10 * B.e03 + A.e11 * B.e13 + A.e12 * B.e23 + A.e13 * B.e33
  e20 := A.e20 * B.e00 + A.e21 * B.e10 + A.e22 * B.e20 + A.e23 * B.e30
  e21 := A.e20 * B.e01 + A.e21 * B.e11 + A.e22 * B.e21 + A.e23 * B.e31
  e22 := A.e20 * B.e02 + A.e21 * B.e12 + A.e22 * B.e22 + A.e23 * B.e32
  e23 := A.e20 * B.e03 + A.e21 * B.e13 + A.e22 * B.e23 + A.e23 * B.e33
  e30 := A.e30 * B.e00 + A.e31 * B.e10 + A.e32 * B.e20 + A.e33 * B.e30
  e31 := A.e30 * B.e01 + A.e31 * B.e11 + A.e32 * B.e21 + A.e33 * B.e31
  e32 := A.e30 * B.e02 + A.e31 * B.e12 + A.e32 * B.e22 + A.e33 * B.e32
  e33 := A.e30 * B.e03 + A.e31 * B.e13 + A.e32 * B.e23 + A.e33 * B.e33

/-- Matrix-vector product (column-vector convention). -/
def Mat4.mulVec {α : Type} [Field α] (A : Mat4 α) (v : Vec4 α) : Vec4 α where
  x := A.e00 * v.x + A.e01 * v.y + A.e02 * v.z + A.e03 * v.w
  y := A.e10 * v.x + A.e11 * v.y + A.e12 * v.z + A.e13 * v.w
  z := A.e20 * v.x + A.e21 * v.y + A.e22 * v.z + A.e23 * v.w
  w := A.e30 * v.x + A.e31 * v.y + A.e32 * v.z + A.e33 * v.w

/-! ## glm functions called by main.cpp -/

/-- `glm::ortho(left, right, bottom, top, zNear, zFar)` (the default
right-handed, [-1,1]-depth variant of glm), transcribed from
`glm/ext/matrix_clip_space.inl`: glm sets `m[0][0] = 2/(r-l)`,
`m[1][1] = 2/(t-b)`, `m[2][2] = -2/(f-n)`, `m[3][0] = -(r+l)/(r-l)`,
`m[3][1] = -(t+b)/(t-b)`, `m[3][2] = -(f+n)/(f-n)` on an identity matrix. -/
def glmOrtho {α : Type} [Field α] (l r b t n f : α) : Mat4 α where
  e00 := 2 / (r - l)
  e01 := 0
  e02 := 0
  e03 := -((r + l) / (r - l))
  e10 := 0
  e11 := 2 / (t - b)
  e12 := 0
  e13 := -((t + b) / (t - b))
  e20 := 0
  e21 := 0
  e22 := -(2 / (f - n))
  e23 := -((f + n) / (f - n))
  e30 := 0
  e31 := 0
  e32 := 0
  e33 := 1

/-- `glm::rotate(m, angle, axis)` from `glm/ext/matrix_transform.inl`, with
the cosine `c` and sine `s` of the angle passed in explicitly (the code
calls it at `c = cos t`, `s = sin t`) and the axis `(ax, ay, az)` required
to be what glm's `normalize` returns — for the axis `(-1, 0, 0)` used by
main.cpp, `normalize` is the identity since the vector is unit length.
glm builds `Rotate[c][r]` over the 3x3 block and returns the matrix whose
column `j < 3` is `m[0]*Rotate[j][0] + m[1]*Rotate[j][1] + m[2]*Rotate[j][2]`
and whose column 3 is `m[3]`; below, `m[c][r]` is written `m.e r c`. -/
def glmRotate {α : Type} [Field α] (m : Mat4 α) (c s ax ay az : α) : Mat4 α where
  e00 := m.e00 * (c + (1 - c) * ax * ax) + m.e01 * ((1 - c) * ax * ay + s * az)
         + m.e02 * ((1 - c) * ax * az - s * ay)
  e10 := m.e10 * (c + (1 - c) * ax * ax) + m.e11 * ((1 - c) * ax * ay + s * az)
         + m.e12 * ((1 - c) * ax * az - s * ay)
  e20 := m.e20 * (c + (1 - c) * ax * ax) + m.e21 * ((1 - c) * ax * ay + s * az)
         + m.e22 * ((1 - c) * ax * az - s * ay)
  e30 := m.e30 * (c + (1 - c) * ax * ax) + m.e31 * ((1 - c) * ax * ay + s * az)
         + m.e32 * ((1 - c) * ax * az - s * ay)
  e01 := m.e00 * ((1 - c) * ay * ax - s * az) + m.e01 * (c + (1 - c) * ay * ay)
         + m.e02 * ((1 - c) * ay * az + s * ax)
  e11 := m.e10 * ((1 - c) * ay * ax - s * az) + m.e11 * (c + (1 - c) * ay * ay)
         + m.e12 * ((1 - c) * ay * az + s * ax)
  e21 := m.e20 * ((1 - c) * ay * ax - s * az) + m.e21 * (c + (1 - c) * ay * ay)
         + m.e22 * ((1 - c) * ay * az + s * ax)
  e31 := m.e30 * ((1 - c) * ay * ax - s * az) + m.e31 * (c + (1 - c) * ay * ay)
         + m.e32 * ((1 - c) * ay * az + s * ax)
  e02 := m.e00 * ((1 - c) * az * ax + s * ay) + m.e01 * ((1 - c) * az * ay - s * ax)
         + m.e02 * (c + (1 - c) * az * az)
  e12 := m.e10 * ((1 - c) * az * ax + s * ay) + m.e11 * ((1 - c) * az * ay - s * ax)
         + m.e12 * (c + (1 - c) * az * az)
  e22 := m.e20 * ((1 - c) * az * ax + s * ay) + m.e21 * ((1 - c) * az * ay - s * ax)
         + m.e22 * (c + (1 - c) * az * az)
  e32 := m.e30 * ((1 - c) * az * ax + s * ay) + m.e31 * ((1 - c) * az * ay - s * ax)
         + m.e32 * (c + (1 - c) * az * az)
  e03 := m.e03
  e13 := m.e13
  e23 := m.e23
  e33 := m.e33

/-- Modelled from the spec's words: the standard pure-rotation (Rodrigues)
matrix about a unit axis `(ux, uy, uz)`, with cosine `c` and sine `s` of the
rotation angle, embedded in a 4x4 homogeneous matrix.  This is the
spec-side comparator for the claim that the model matrix "equals a pure
rotation about the axis (-1, 0, 0) by angle t radians". -/
def axisAngleRotation {α : Type} [Field α] (c s ux uy uz : α) : Mat4 α where
  e00 := c + (1 - c) * ux * ux
  e01 := (1 - c) * ux * uy - s * uz
  e02 := (1 - c) * ux * uz + s * uy
  e03 := 0
  e10 := (1 - c) * uy * ux + s * uz
  e11 := c + (1 - c) * uy * uy
  e12 := (1 - c) * uy * uz - s * ux
  e13 := 0
  e20 := (1 - c) * uz * ux - s * uy
  e21 := (1 - c) * uz * uy + s * ux
  e22 := c + (1 - c) * uz * uz
  e23 := 0
  e30 := 0
  e31 := 0
  e32 := 0
  e33 := 1

/-! ## The per-frame transform computation (main.cpp lines 260-267) -/

/-- The projection matrix of main.cpp line 266:
`p = glm::ortho(-ratio, ratio, -1.f, 1.f, 1.f, -1.f)`. -/
def projectionMatrix {α : Type} [Field α] (ratio : α) : Mat4 α :=
  glmOrtho (-ratio) ratio (-1) 1 1 (-1)

/-- The model matrix of main.cpp lines 264-265:
`m = glm::identity<glm::mat4>(); m = glm::rotate(m, (float)glfwGetTime(), vector3)`
with `vector3 = {-1.f, 0.f, 0.f}`; `c` and `s` stand for the cosine and sine
of the elapsed time. -/
def modelMatrix {α : Type} [Field α] (c s : α) : Mat4 α :=
  glmRotate (Mat4.identity α) c s (-1) 0 0

/-- The full transform computation of main.cpp lines 260-267, ending in
`mvp = p * m`; a pure function of the elapsed time (through its cosine `c`
and sine `s`) and the aspect ratio. -/
def transformCompute {α : Type} [Field α] (c s ratio : α) : Mat4 α :=
  Mat4.mul (projectionMatrix ratio) (modelMatrix c s)

/-! ## The key callback (main.cpp lines 90-99) -/

/-- `key_callback(window, key, scancode, action, mods)`: sets the window
close flag (via `glfwSetWindowShouldClose(window, GLFW_TRUE)`) exactly when
`key == GLFW_KEY_ESCAPE && action == GLFW_PRESS`; `scancode` and `mods` are
unused.  The window's close flag is threaded explicitly as `flag`. -/
def key_callback (key scancode action mods : Int) (flag : Bool) : Bool :=
  if key = GLFW_KEY_ESCAPE ∧ action = GLFW_PRESS then true else flag

/-! ## Event-trace model of `main` (main.cpp lines 101-320)

Each GLFW/OpenGL call that `main` makes is recorded as one `Event`.  The
outcomes that the environment decides — whether `glfwInit` succeeds,
whether window creation succeeds, whether each shader stage compiles and
the program links, and what each frame-loop iteration observes (framebuffer
size, elapsed time, whether event polling ends with the close flag set) —
are supplied through `Env`.  Shader source strings are identified by their
stage, and uniform/attribute names by an enumeration of the three names the
code queries. -/

/-- The two shader stages created by main.cpp lines 190 and 194. -/
inductive ShaderKind where
  | vertex
  | fragment
deriving DecidableEq

/-- The three shader interface names queried by main.cpp lines 203-205. -/
inductive GlslName where
  | mvp
  | vPos
  | vCol
deriving DecidableEq

/-- One GLFW/OpenGL call of `main`, with the arguments the claims depend
on.  `vertexAttribPointer` records component count, stride and offset in
bytes (a float is 4 bytes, one vertex record 20 bytes).  `uniformUpload`
records the pair (elapsed time, aspect ratio) that determines the uploaded
matrix through `transformCompute`.  `bufferSubData`, `deleteBuffer`,
`deleteProgram` model GL calls the API offers for updating or releasing the
buffer and the program; `errorReport` models a line printed on the error
stream by `error_callback`. -/
inductive Event where
  | setErrorCallback
  | errorReport
  | windowHint (value : Nat)
  | createWindow (width height : Nat)
  | setKeyCallback
  | makeContextCurrent
  | loadGL
  | setSwapInterval (interval : Nat)
  | genBuffer
  | bindBuffer
  | bufferData (data : List ℚ)
  | bufferSubData (data : List ℚ)
  | createShader (stage : ShaderKind)
  | shaderSource (stage : ShaderKind)
  | compileShader (stage : ShaderKind)
  | createProgram
  | attachShader (stage : ShaderKind)
  | linkProgram
  | getUniformLocation (name : GlslName)
  | getAttribLocation (name : GlslName)
  | enableVertexAttribArray (name : GlslName)
  | vertexAttribPointer (name : GlslName) (size strideBytes offsetBytes : Nat)
  | getTime
  | viewport (width height : Int)
  | clear
  | useProgram
  | uniformUpload (time : ℚ) (ratio : FloatVal)
  | draw (first count : Nat)
  | swapBuffers
  | pollEvents
  | deleteBuffer
  | deleteProgram
  | destroyWindow
  | terminate
deriving DecidableEq

/-- What the window system reports to one frame-loop iteration: the
framebuffer size returned by `glfwGetFramebufferSize`, the elapsed time
returned by `glfwGetTime`, and whether the `glfwPollEvents` call at the end
of the iteration delivers a close request (the escape key pressed — routed
through `key_callback` — or a platform close action), so that the window
close flag reads true at the top of the next iteration. -/
structure FrameInput where
  width : Int
  height : Int
  time : ℚ
  closeAfterPoll : Bool
deriving DecidableEq

/-- The environment of one process run: whether `glfwInit` succeeds,
whether `glfwCreateWindow` succeeds, the GPU-side outcomes of compiling
each shader stage and linking the program (which main.cpp never reads),
and the per-iteration inputs the window system would supply. -/
structure Env where
  initOk : Bool
  windowOk : Bool
  vertexCompileOk : Bool
  fragmentCompileOk : Bool
  linkOk : Bool
  frames : List FrameInput
deriving DecidableEq

/-- The aspect-ratio computation of main.cpp line 255,
`float ratio = width / (float)height;` — an unguarded float division. -/
def iterationRatio (inp : FrameInput) : FloatVal :=
  fdiv (inp.width : ℚ) (inp.height : ℚ)

/-- The calls of one frame-loop iteration, main.cpp lines 253-302:
query the framebuffer size, compute the ratio, set the viewport, clear,
compute the transform (lines 260-267: pure glm arithmetic, no GL or window
call, hence no event between `clear` and `useProgram`), bind the program,
upload the matrix, draw 3 vertices starting at 0, swap buffers, poll
events.  The body reads neither the close flag nor any other loop state. -/
def frameEvents (inp : FrameInput) : List Event :=
  [Event.viewport inp.width inp.height, Event.clear, Event.useProgram,
   Event.uniformUpload inp.time (iterationRatio inp), Event.draw 0 3,
   Event.swapBuffers, Event.pollEvents]

/-- The frame loop of main.cpp lines 241-313:
`while (!glfwWindowShouldClose(window)) { ... }`.  The close flag is tested
at the top of each iteration; an iteration runs to completion and its
event polling determines the flag seen by the next test.  The result pairs
the events of all executed iterations with `true` when the loop terminated
on the close flag and `false` when the supplied inputs ran out with the
flag still unset (the run would continue). -/
def runLoop : Bool → List FrameInput → List Event × Bool
  | true, _ => ([], true)
  | false, [] => ([], false)
  | false, inp :: rest =>
      let r := runLoop inp.closeAfterPoll rest
      (frameEvents inp ++ r.1, r.2)

/-- The calls of main.cpp lines 109-130 up to and including window
creation: set the error callback, (glfwInit), the two version hints, and
`glfwCreateWindow(640, 480, "My Title", nullptr, nullptr)`. -/
def preWindowEvents : List Event :=
  [Event.setErrorCallback, Event.windowHint 3, Event.windowHint 0,
   Event.createWindow 640 480]

/-- The GPU resource setup of main.cpp lines 186-212: one buffer is
generated, bound and filled with the static vertex array; the two shader
stages are created, sourced and compiled; one program is created, the
stages attached and linked; the three interface locations are resolved;
both attribute arrays are enabled and laid out with stride
`sizeof(vertices[0])` = 20 bytes, position (2 floats) at offset 0 and
color (3 floats) at offset `sizeof(float) * 2` = 8 bytes. -/
def gpuSetupEvents : List Event :=
  [Event.genBuffer, Event.bindBuffer, Event.bufferData vertexFloats,
   Event.createShader ShaderKind.vertex, Event.shaderSource ShaderKind.vertex,
   Event.compileShader ShaderKind.vertex,
   Event.createShader ShaderKind.fragment, Event.shaderSource ShaderKind.fragment,
   Event.compileShader ShaderKind.fragment,
   Event.createProgram, Event.attachShader ShaderKind.vertex,
   Event.attachShader ShaderKind.fragment, Event.linkProgram,
   Event.getUniformLocation GlslName.mvp, Event.getAttribLocation GlslName.vPos,
   Event.getAttribLocation GlslName.vCol,
   Event.enableVertexAttribArray GlslName.vPos,
   Event.vertexAttribPointer GlslName.vPos 2 20 0,
   Event.enableVertexAttribArray GlslName.vCol,
   Event.vertexAttribPointer GlslName.vCol 3 20 8]

/-- Every call of `main` from startup through the statement before the
frame loop, in program order (main.cpp lines 109-230), for a run in which
initialization and window creation succeed. -/
def setupEvents : List Event :=
  preWindowEvents
    ++ [Event.setKeyCallback, Event.makeContextCurrent, Event.loadGL,
        Event.setSwapInterval 1]
    ++ gpuSetupEvents ++ [Event.getTime]

/-- The whole of `main` (main.cpp lines 101-320) as exit code plus event
trace.  If `glfwInit` fails, `main` exits with `EXIT_FAILURE` at line 114
(GLFW reports the error through the callback).  If window creation fails,
`main` calls `glfwTerminate` and exits with `EXIT_FAILURE` at line 139.
Otherwise setup runs — note that the compile/link outcomes in `env` are
never consulted: main.cpp performs no status query after lines 192, 196
and 201 — and the frame loop follows; when the loop terminates on the
close flag, the window is destroyed, GLFW is terminated and the process
exits with `EXIT_SUCCESS` (lines 315-319).  Exit code `none` means the
supplied frame inputs were exhausted with the run still going. -/
def runMain (env : Env) : Option Nat × List Event :=
  if env.initOk = true then
    if env.windowOk = true then
      let r := runLoop false env.frames
      if r.2 = true then
        (some EXIT_SUCCESS,
         setupEvents ++ r.1 ++ [Event.destroyWindow, Event.terminate])
      else (none, setupEvents ++ r.1)
    else (some EXIT_FAILURE, preWindowEvents ++ [Event.errorReport, Event.terminate])
  else (some EXIT_FAILURE, [Event.setErrorCallback, Event.errorReport])

/-- The process exit status of a run (`none` = still running). -/
def runMainExit (env : Env) : Option Nat :=
  (runMain env).1

/-- The event trace of a run. -/
def runMainTrace (env : Env) : List Event :=
  (runMain env).2

/-- Whether the frame loop of a run terminates on the close flag. -/
def loopFinished (frames : List FrameInput) : Bool :=
  (runLoop false frames).2

/-! ## Event classifiers used to count calls in a trace -/

/-- Recognizes `draw` events. -/
def isDraw : Event → Bool
  | .draw _ _ => true
  | _ => false

/-- Recognizes `swapBuffers` (frame presentation) events. -/
def isSwap : Event → Bool
  | .swapBuffers => true
  | _ => false

/-- Recognizes `genBuffer` events. -/
def isGenBuffer : Event → Bool
  | .genBuffer => true
  | _ => false

/-- Recognizes `createProgram` events. -/
def isCreateProgram : Event → Bool
  | .createProgram => true
  | _ => false

/-- Recognizes `deleteBuffer` events. -/
def isDeleteBuffer : Event → Bool
  | .deleteBuffer => true
  | _ => false

/-- Recognizes `deleteProgram` events. -/
def isDeleteProgram : Event → Bool
  | .deleteProgram => true
  | _ => false

/-- Recognizes `destroyWindow` events. -/
def isDestroyWindow : Event → Bool
  | .destroyWindow => true
  | _ => false

/-- Recognizes `terminate` events. -/
def isTerminate : Event → Bool
  | .terminate => true
  | _ => false

/-- Recognizes `bufferData` events. -/
def isBufferData : Event → Bool
  | .bufferData _ => true
  | _ => false

/-- Recognizes `bufferSubData` (buffer update) events. -/
def isBufferSubData : Event → Bool
  | .bufferSubData _ => true
  | _ => false

/-- Recognizes `errorReport` (error-stream diagnostic) events. -/
def isErrorReport : Event → Bool
  | .errorReport => true
  | _ => false

/-- A frame-loop iteration emits none of the setup/teardown events: its
seven events are viewport, clear, useProgram, uniformUpload, draw,
swapBuffers and pollEvents only. -/
theorem frameEvents_countP_zero (p : Event → Bool)
    (h1 : p Event.clear = false) (h2 : p Event.useProgram = false)
    (h3 : p (Event.draw 0 3) = false) (h4 : p Event.swapBuffers = false)
    (h5 : p Event.pollEvents = false)
    (h6 : ∀ w h : Int, p (Event.viewport w h) = false)
    (h7 : ∀ t r, p (Event.uniformUpload t r) = false)
    (inp : FrameInput) : (frameEvents inp).countP p = 0 := by
  simp [frameEvents, List.countP_cons, h1, h2, h3, h4, h5, h6, h7]

/-- Whatever the close flag and the frame inputs, the loop emits no event
satisfying a classifier that no iteration event satisfies. -/
theorem runLoop_countP_zero (p : Event → Bool)
    (hframe : ∀ inp : FrameInput, (frameEvents inp).countP p = 0) :
    ∀ (close : Bool) (frames : List FrameInput),
      ((runLoop close frames).1).countP p = 0 := by
  intro close frames
  induction frames generalizing close with
  | nil => cases close <;> simp [runLoop]
  | cons inp rest ih =>
      cases close with
      | true => simp [runLoop]
      | false => simp [runLoop, List.countP_append, hframe, ih]

/-! ## Claim theorems -/

/-- Claim C4: for every invocation of the key callback, if the key is
escape and the action is pressed the window close flag becomes true, and
for escape with action released or repeated, and for every other
key/action combination, the callback leaves the flag unchanged. -/
theorem C4_key_callback_escape_only (k sc a m : Int) (flag : Bool) :
    key_callback GLFW_KEY_ESCAPE sc GLFW_PRESS m flag = true ∧
    key_callback GLFW_KEY_ESCAPE sc GLFW_RELEASE m flag = flag ∧
    key_callback GLFW_KEY_ESCAPE sc GLFW_REPEAT m flag = flag ∧
    (k ≠ GLFW_KEY_ESCAPE ∨ a ≠ GLFW_PRESS → key_callback k sc a m flag = flag) := by
  refine ⟨?_, ?_, ?_, ?_⟩
  · simp [key_callback]
  · simp [key_callback, GLFW_PRESS, GLFW_RELEASE]
  · simp [key_callback, GLFW_PRESS, GLFW_REPEAT]
  · intro h
    rcases h with h | h <;> simp [key_callback, h]

/-- Claim C4 witness: pressing escape sets the flag; pressing the key with
identifier 65 (an unrelated key) leaves it unchanged; releasing escape
leaves it unchanged. -/
theorem C4_key_callback_escape_only_witness :
    key_callback GLFW_KEY_ESCAPE 0 GLFW_PRESS 0 false = true ∧
    key_callback GLFW_KEY_ESCAPE 0 GLFW_RELEASE 0 false = false ∧
    key_callback 65 0 GLFW_PRESS 0 false = false :=
  ⟨(C4_key_callback_escape_only 65 0 GLFW_PRESS 0 false).1,
   (C4_key_callback_escape_only 65 0 GLFW_PRESS 0 false).2.1,
   (C4_key_callback_escape_only 65 0 GLFW_PRESS 0 false).2.2.2
     (Or.inl (by decide))⟩

/-- Claim C5: for every aspect ratio `r > 0`, the projection matrix built
by the transform step is `glm::ortho` with horizontal bounds `[-r, r]`,
vertical bounds `[-1, 1]` and near/far bounds `[1, -1]` (the reversed
near/far pair exactly as in the source), and it maps the frustum corner
`(-r, -1, 0)` to output `x = -1, y = -1` and the corner `(r, 1, 0)` to
output `x = 1, y = 1` (homogeneous coordinate 1 in both cases). -/
theorem C5_projection_bounds (r : ℚ) (hr : 0 < r) :
    projectionMatrix r = glmOrtho (-r) r (-1) 1 1 (-1) ∧
    (Mat4.mulVec (projectionMatrix r) ⟨-r, -1, 0, 1⟩).x = -1 ∧
    (Mat4.mulVec (projectionMatrix r) ⟨-r, -1, 0, 1⟩).y = -1 ∧
    (Mat4.mulVec (projectionMatrix r) ⟨-r, -1, 0, 1⟩).w = 1 ∧
    (Mat4.mulVec (projectionMatrix r) ⟨r, 1, 0, 1⟩).x = 1 ∧
    (Mat4.mulVec (projectionMatrix r) ⟨r, 1, 0, 1⟩).y = 1 ∧
    (Mat4.mulVec (projectionMatrix r) ⟨r, 1, 0, 1⟩).w = 1 := by
  have hr0 : r ≠ 0 := ne_of_gt hr
  have h2 : r + r ≠ 0 := fun h => absurd hr (by rw [not_lt]; linarith)
  refine ⟨rfl, ?_, ?_, ?_, ?_, ?_, ?_⟩ <;>
    simp [projectionMatrix, glmOrtho, Mat4.mulVec] <;>
    field_simp <;> ring_nf

/-- Claim C5 witness: the boundary mapping at the concrete aspect ratio 2. -/
theorem C5_projection_bounds_witness :
    projectionMatrix (2 : ℚ) = glmOrtho (-2) 2 (-1) 1 1 (-1) ∧
    (Mat4.mulVec (projectionMatrix (2 : ℚ)) ⟨-2, -1, 0, 1⟩).x = -1 ∧
    (Mat4.mulVec (projectionMatrix (2 : ℚ)) ⟨-2, -1, 0, 1⟩).y = -1 ∧
    (Mat4.mulVec (projectionMatrix (2 : ℚ)) ⟨-2, -1, 0, 1⟩).w = 1 ∧
    (Mat4.mulVec (projectionMatrix (2 : ℚ)) ⟨2, 1, 0, 1⟩).x = 1 ∧
    (Mat4.mulVec (projectionMatrix (2 : ℚ)) ⟨2, 1, 0, 1⟩).y = 1 ∧
    (Mat4.mulVec (projectionMatrix (2 : ℚ)) ⟨2, 1, 0, 1⟩).w = 1 :=
  C5_projection_bounds 2 (by decide)

/-- Claim C6: for every elapsed time `t`, the model matrix built by the
transform step (`glm::rotate` of the identity by angle `t` about the axis
`(-1, 0, 0)`) equals the pure axis-angle rotation about `(-1, 0, 0)` by
angle `t` radians; at `t = 0` the model matrix is the identity; and the
final matrix equals projection × model in that composition order. -/
theorem C6_model_is_pure_rotation (t r : ℝ) :
    modelMatrix (Real.cos t) (Real.sin t)
      = axisAngleRotation (Real.cos t) (Real.sin t) (-1) 0 0 ∧
    modelMatrix (Real.cos 0) (Real.sin 0) = Mat4.identity ℝ ∧
    transformCompute (Real.cos t) (Real.sin t) r
      = Mat4.mul (projectionMatrix r) (modelMatrix (Real.cos t) (Real.sin t)) := by
  refine ⟨?_, ?_, rfl⟩
  · simp only [modelMatrix, glmRotate, axisAngleRotation, Mat4.identity, Mat4.mk.injEq]
    repeat' apply And.intro
    all_goals ring
  · simp only [Real.cos_zero, Real.sin_zero, modelMatrix, glmRotate,
      Mat4.identity, Mat4.mk.injEq]
    norm_num

/-- Claim C7: if the window close flag reads true at the top of a
frame-loop iteration, the loop performs zero further draw or present
(buffer-swap) calls, emits no further events at all, and terminates
immediately (the `true` component: the Running → Terminated transition);
no further iterations occur. -/
theorem C7_close_flag_stops_loop (frames : List FrameInput) :
    runLoop true frames = ([], true) ∧
    ((runLoop true frames).1).countP isDraw = 0 ∧
    ((runLoop true frames).1).countP isSwap = 0 := by
  refine ⟨?_, ?_, ?_⟩ <;> simp [runLoop]

/-- Claim C8: the transform computation is deterministic and stateless —
two frame-loop iterations whose window-system inputs agree on elapsed time
and framebuffer size perform identical calls with identical uploaded
transform data, regardless of every other component of the inputs (such as
what event polling later delivers); the iteration's event list shows that
the transform computation itself (between `clear` and `useProgram`) makes
no GPU or window call; and the uploaded ratio is the pure function `fdiv`
of the two size inputs alone. -/
theorem C8_transform_deterministic (i1 i2 : FrameInput)
    (ht : i1.time = i2.time) (hw : i1.width = i2.width)
    (hh : i1.height = i2.height) :
    frameEvents i1 = frameEvents i2 ∧
    frameEvents i1 = [Event.viewport i1.width i1.height, Event.clear,
      Event.useProgram, Event.uniformUpload i1.time (iterationRatio i1),
      Event.draw 0 3, Event.swapBuffers, Event.pollEvents] ∧
    iterationRatio i1 = fdiv (i1.width : ℚ) (i1.height : ℚ) := by
  refine ⟨?_, rfl, rfl⟩
  cases i1
  cases i2
  simp_all [frameEvents, iterationRatio]

/-- Input for the C8 witness: one iteration after which polling reports
no close request. -/
def frameSame1 : FrameInput := ⟨640, 480, 5, false⟩

/-- Input for the C8 witness: same size and time as `frameSame1`, but
polling reports a close request. -/
def frameSame2 : FrameInput := ⟨640, 480, 5, true⟩

/-- Claim C8 witness: two iterations with equal time and size but
different polling outcomes perform identical calls. -/
theorem C8_transform_deterministic_witness :
    frameEvents frameSame1 = frameEvents frameSame2 ∧
    frameEvents frameSame1 = [Event.viewport 640 480, Event.clear,
      Event.useProgram, Event.uniformUpload 5 (iterationRatio frameSame1),
      Event.draw 0 3, Event.swapBuffers, Event.pollEvents] ∧
    iterationRatio frameSame1 = fdiv ((640 : Int) : ℚ) ((480 : Int) : ℚ) :=
  C8_transform_deterministic frameSame1 frameSame2 rfl rfl rfl

/-- Claim C9: the process exit code is `EXIT_SUCCESS` exactly when the run
ends by normal window close (the loop terminating on the close flag), and
the nonzero `EXIT_FAILURE` exactly when GLFW initialization or window
creation fails; the only remaining outcome is that the run is still going
(`none`), so no other terminal path exists. -/
theorem C9_exit_codes (env : Env) :
    (runMainExit env = some EXIT_SUCCESS ↔
      env.initOk = true ∧ env.windowOk = true ∧ loopFinished env.frames = true) ∧
    (runMainExit env = some EXIT_FAILURE ↔
      env.initOk = false ∨ env.windowOk = false) ∧
    (runMainExit env = none ↔
      env.initOk = true ∧ env.windowOk = true ∧ loopFinished env.frames = false) ∧
    (runMainExit env = some EXIT_SUCCESS ∨ runMainExit env = some EXIT_FAILURE ∨
      runMainExit env = none) := by
  obtain ⟨i, w, v, f, l, frames⟩ := env
  cases i <;> cases w <;>
    cases hfin : (runLoop false frames).2 <;>
      simp [runMainExit, runMain, loopFinished, EXIT_SUCCESS, EXIT_FAILURE, hfin]

/-- A frame-loop iteration in which the framebuffer query reports width
640 and height 0 (e.g. a window minimized during a resize). -/
def heightZeroInput : FrameInput := ⟨640, 0, 1, false⟩

/-- Claim C1 counterexample: when the framebuffer query reports height 0,
the aspect-ratio computation of main.cpp line 255 performs the division by
zero anyway — the IEEE result is +infinity, not the claimed sentinel 1.0 —
and the draw (and present) are not skipped: the iteration issues its draw
call as usual. -/
theorem C1_counterexample :
    iterationRatio heightZeroInput = FloatVal.posInf ∧
    iterationRatio heightZeroInput ≠ FloatVal.finite 1 ∧
    (frameEvents heightZeroInput).countP isDraw = 1 ∧
    (frameEvents heightZeroInput).countP isSwap = 1 := by decide

/-- Claim C1 as amended: in an iteration where the framebuffer query
reports height 0 (and a positive width), the code divides by zero; under
IEEE float semantics the ratio becomes +infinity rather than trapping, and
the iteration still completes every one of its steps — viewport, clear,
transform, program bind, matrix upload, draw, present, poll — so the
condition is a non-fatal single-iteration degradation, but nothing skips
the draw and no sentinel ratio is substituted. -/
theorem C1_amended_division_unguarded (inp : FrameInput)
    (h0 : inp.height = 0) (hw : 0 < inp.width) :
    iterationRatio inp = FloatVal.posInf ∧
    frameEvents inp = [Event.viewport inp.width 0, Event.clear,
      Event.useProgram, Event.uniformUpload inp.time FloatVal.posInf,
      Event.draw 0 3, Event.swapBuffers, Event.pollEvents] := by
  have hq : (0 : ℚ) < (inp.width : ℚ) := by exact_mod_cast hw
  have hratio : iterationRatio inp = FloatVal.posInf := by
    simp [iterationRatio, fdiv, h0, hq, hq.ne']
  exact ⟨hratio, by simp [frameEvents, hratio, h0]⟩

/-- Claim C1 amended witness: the degraded iteration at framebuffer size
640 × 0. -/
theorem C1_amended_division_unguarded_witness :
    iterationRatio heightZeroInput = FloatVal.posInf ∧
    frameEvents heightZeroInput = [Event.viewport 640 0, Event.clear,
      Event.useProgram, Event.uniformUpload 1 FloatVal.posInf,
      Event.draw 0 3, Event.swapBuffers, Event.pollEvents] :=
  C1_amended_division_unguarded heightZeroInput rfl (by decide)

/-- A run in which GLFW initialization and window creation succeed, the
program link step fails, and the first iteration's event polling delivers
a close request. -/
def linkFailEnv : Env := ⟨true, true, true, true, false, [⟨640, 480, 0, true⟩]⟩

/-- Claim C2 counterexample: in a run whose link step fails, the process
still enters the frame loop and issues a draw call, never reports a
diagnostic on the error stream, and exits with the success status — there
is no status check after `glCompileShader`/`glLinkProgram` in main.cpp
(its own comment at line 184 notes that error checks were omitted). -/
theorem C2_counterexample :
    runMainExit linkFailEnv = some EXIT_SUCCESS ∧
    Event.draw 0 3 ∈ runMainTrace linkFailEnv ∧
    (runMainTrace linkFailEnv).countP isErrorReport = 0 := by decide

/-- Claim C2 as amended: shader compile and link results are never
consulted — the run's exit code and entire event trace are unchanged under
any combination of compile/link outcomes, and whenever initialization and
window creation succeed the process proceeds into the frame loop
regardless (the trace is the full setup followed by the loop's events).
Only `glfwInit` and window-creation failures are fatal startup errors. -/
theorem C2_amended_status_never_checked (env : Env) (b1 b2 b3 : Bool)
    (hi : env.initOk = true) (hw : env.windowOk = true) :
    runMain { env with vertexCompileOk := b1, fragmentCompileOk := b2, linkOk := b3 }
      = runMain env ∧
    runMainTrace env = setupEvents ++ (runLoop false env.frames).1 ++
      (if (runLoop false env.frames).2 = true
        then [Event.destroyWindow, Event.terminate] else []) := by
  obtain ⟨i, w, v, f, l, frames⟩ := env
  refine ⟨rfl, ?_⟩
  subst hi
  subst hw
  by_cases hfin : (runLoop false frames).2 = true <;>
    simp [runMainTrace, runMain, hfin]

/-- Claim C2 amended witness: the link-failure run of `linkFailEnv` has
the same exit and trace as the same run with every stage succeeding, and
its trace is setup followed by the loop and the teardown. -/
theorem C2_amended_status_never_checked_witness :
    runMain { linkFailEnv with vertexCompileOk := false, fragmentCompileOk := false, linkOk := false }
      = runMain linkFailEnv ∧
    runMainTrace linkFailEnv = setupEvents ++ (runLoop false linkFailEnv.frames).1 ++
      (if (runLoop false linkFailEnv.frames).2 = true
        then [Event.destroyWindow, Event.terminate] else []) :=
  C2_amended_status_never_checked linkFailEnv false false false rfl rfl

/-- A complete run: all initialization succeeds and the first iteration's
event polling delivers a close request, so the loop terminates normally. -/
def normalRunEnv : Env := ⟨true, true, true, true, true, [⟨640, 480, 0, true⟩]⟩

/-- Claim C3 counterexample: over a complete process run, exactly one
buffer and one program are created, but neither is released even once —
main.cpp contains no `glDeleteBuffers`/`glDeleteProgram` call, so the
claimed "released exactly once" count of 1 is in fact 0 for both. -/
theorem C3_counterexample :
    runMainExit normalRunEnv = some EXIT_SUCCESS ∧
    (runMainTrace normalRunEnv).countP isGenBuffer = 1 ∧
    (runMainTrace normalRunEnv).countP isCreateProgram = 1 ∧
    (runMainTrace normalRunEnv).countP isDeleteBuffer = 0 ∧
    (runMainTrace normalRunEnv).countP isDeleteProgram = 0 := by decide

/-- Claim C3 as amended: over any complete process run, exactly one vertex
buffer and exactly one shader program are created, and neither is ever
explicitly released (they persist until the GL context itself is torn
down at process exit); the single window created at startup is destroyed
exactly once, after the frame loop terminates and before `glfwTerminate`
and process exit. -/
theorem C3_amended_create_without_release (env : Env)
    (hi : env.initOk = true) (hw : env.windowOk = true)
    (hfin : (runLoop false env.frames).2 = true) :
    runMainTrace env = setupEvents ++ (runLoop false env.frames).1
      ++ [Event.destroyWindow, Event.terminate] ∧
    (runMainTrace env).countP isGenBuffer = 1 ∧
    (runMainTrace env).countP isCreateProgram = 1 ∧
    (runMainTrace env).countP isDeleteBuffer = 0 ∧
    (runMainTrace env).countP isDeleteProgram = 0 ∧
    (runMainTrace env).countP isDestroyWindow = 1 ∧
    (runMainTrace env).countP isTerminate = 1 := by
  have htr : runMainTrace env = setupEvents ++ (runLoop false env.frames).1
      ++ [Event.destroyWindow, Event.terminate] := by
    simp [runMainTrace, runMain, hi, hw, hfin]
  refine ⟨htr, ?_, ?_, ?_, ?_, ?_, ?_⟩ <;>
    rw [htr, List.countP_append, List.countP_append,
      runLoop_countP_zero _ (frameEvents_countP_zero _ rfl rfl rfl rfl rfl
        (fun _ _ => rfl) (fun _ _ => rfl))] <;>
    decide

/-- Claim C3 amended witness: the resource counts of the complete run
`normalRunEnv`. -/
theorem C3_amended_create_without_release_witness :
    runMainTrace normalRunEnv = setupEvents ++ (runLoop false normalRunEnv.frames).1
      ++ [Event.destroyWindow, Event.terminate] ∧
    (runMainTrace normalRunEnv).countP isGenBuffer = 1 ∧
    (runMainTrace normalRunEnv).countP isCreateProgram = 1 ∧
    (runMainTrace normalRunEnv).countP isDeleteBuffer = 0 ∧
    (runMainTrace normalRunEnv).countP isDeleteProgram = 0 ∧
    (runMainTrace normalRunEnv).countP isDestroyWindow = 1 ∧
    (runMainTrace normalRunEnv).countP isTerminate = 1 :=
  C3_amended_create_without_release normalRunEnv rfl rfl (by decide)

/-- A complete run used to witness the vertex-buffer claim. -/
def vertexRunEnv : Env := ⟨true, true, true, true, true, [⟨800, 600, 2, true⟩]⟩

/-- Claim C10: the vertex buffer uploaded at startup contains exactly the
three vertices with positions (-0.6, -0.4), (0.6, -0.4), (0.0, 0.6) and
colors (1,0,0), (0,1,0), (0,0,1), laid out as 2 position floats followed
by 3 color floats per 5-float (20-byte) record — position at byte offset
0, color at byte offset 8, per the two `glVertexAttribPointer` calls; in
every run that reaches the setup, the buffer is uploaded exactly once and
no buffer-update call ever occurs afterward (the source array is a static
constant the program only reads). -/
theorem C10_vertex_buffer_static (env : Env)
    (hi : env.initOk = true) (hw : env.windowOk = true) :
    vertexFloats = [-0.6, -0.4, 1, 0, 0, 0.6, -0.4, 0, 1, 0, 0, 0.6, 0, 0, 1] ∧
    (runMainTrace env).countP isBufferData = 1 ∧
    (runMainTrace env).countP isBufferSubData = 0 ∧
    Event.bufferData vertexFloats ∈ runMainTrace env ∧
    Event.vertexAttribPointer GlslName.vPos 2 20 0 ∈ runMainTrace env ∧
    Event.vertexAttribPointer GlslName.vCol 3 20 8 ∈ runMainTrace env := by
  have hmem : ∀ e : Event, e ∈ setupEvents → e ∈ runMainTrace env := by
    intro e he
    by_cases hfin : (runLoop false env.frames).2 = true <;>
      simp [runMainTrace, runMain, hi, hw, hfin, List.mem_append, he]
  have hcount : ∀ p : Event → Bool,
      (∀ inp : FrameInput, (frameEvents inp).countP p = 0) →
      (runMainTrace env).countP p
        = setupEvents.countP p
          + [Event.destroyWindow, Event.terminate].countP p
        ∨ (runMainTrace env).countP p = setupEvents.countP p := by
    intro p hp
    by_cases hfin : (runLoop false env.frames).2 = true
    · left
      have htr : runMainTrace env = setupEvents ++ (runLoop false env.frames).1
          ++ [Event.destroyWindow, Event.terminate] := by
        simp [runMainTrace, runMain, hi, hw, hfin]
      rw [htr, List.countP_append, List.countP_append, runLoop_countP_zero _ hp]
      omega
    · right
      have htr : runMainTrace env = setupEvents ++ (runLoop false env.frames).1 := by
        simp [runMainTrace, runMain, hi, hw, hfin]
      rw [htr, List.countP_append, runLoop_countP_zero _ hp]
      omega
  refine ⟨rfl, ?_, ?_,
    hmem _ (by simp [setupEvents, preWindowEvents, gpuSetupEvents]),
    hmem _ (by simp [setupEvents, preWindowEvents, gpuSetupEvents]),
    hmem _ (by simp [setupEvents, preWindowEvents, gpuSetupEvents])⟩
  · rcases hcount isBufferData (frameEvents_countP_zero _ rfl rfl rfl rfl rfl
      (fun _ _ => rfl) (fun _ _ => rfl)) with h | h <;> rw [h] <;> decide
  · rcases hcount isBufferSubData (frameEvents_countP_zero _ rfl rfl rfl rfl rfl
      (fun _ _ => rfl) (fun _ _ => rfl)) with h | h <;> rw [h] <;> decide

/-- Claim C10 witness: the buffer contents and layout in the complete run
`vertexRunEnv`. -/
theorem C10_vertex_buffer_static_witness :
    vertexFloats = [-0.6, -0.4, 1, 0, 0, 0.6, -0.4, 0, 1, 0, 0, 0.6, 0, 0, 1] ∧
    (runMainTrace vertexRunEnv).countP isBufferData = 1 ∧
    (runMainTrace vertexRunEnv).countP isBufferSubData = 0 ∧
    Event.bufferData vertexFloats ∈ runMainTrace vertexRunEnv ∧
    Event.vertexAttribPointer GlslName.vPos 2 20 0 ∈ runMainTrace vertexRunEnv ∧
    Event.vertexAttribPointer GlslName.vCol 3 20 8 ∈ runMainTrace vertexRunEnv :=
  C10_vertex_buffer_static vertexRunEnv rfl rfl

end OpenGLPractice
